import Mathlib

/-!
Verification of PostProber's health-alert pipeline.

This file shallowly embeds the qualifying core of the PostProber repository:
the health analyzer fallback (`src/backend/tools/health_monitor.py`,
`HealthMonitorTool.analyze_health`), the alert deduplication / cooldown
filter (`src/backend/jobs/health_scheduler.py`,
`HealthScheduler._should_send_alert` / `_process_platform_alert`), and the
WebSocket broadcast fan-out (`src/backend/services/websocket_manager.py`,
`ConnectionManager`).

Python dictionaries are embedded as association lists (`List (α × β)`) with
insertion-order semantics: `dictGet` is `dict.get`, `dictSet` is item
assignment (replace in place if the key is present, else append), `dictPop`
is `dict.pop(k, None)` (removes the first entry with the key).  Timestamps
(`datetime.now()`) are passed explicitly as rational numbers of seconds;
`(a - b).total_seconds()` becomes plain subtraction.  Floats from the source
are embedded as rationals.
-/

set_option autoImplicit false

namespace PostProber

section Dict

variable {α : Type} {β : Type} [DecidableEq α]

/-- `d.get k` on a Python dict embedded as an association list. -/
def dictGet (d : List (α × β)) (k : α) : Option β :=
  match d with
  | [] => none
  | (k', v) :: rest => if k' = k then some v else dictGet rest k

/-- `d[k] = v` on a Python dict: replace the value in place if the key is
present, otherwise append the binding. -/
def dictSet (d : List (α × β)) (k : α) (v : β) : List (α × β) :=
  match d with
  | [] => [(k, v)]
  | (k', v') :: rest =>
    if k' = k then (k', v) :: rest else (k', v') :: dictSet rest k v

/-- `d.pop(k, None)` on a Python dict: remove the first entry with key `k`. -/
def dictPop (d : List (α × β)) (k : α) : List (α × β) :=
  match d with
  | [] => []
  | (k', v') :: rest =>
    if k' = k then rest else (k', v') :: dictPop rest k

end Dict

/-!
## Health analyzer (`HealthMonitorTool`)

`analyze_health` first asks the LLM collaborator; any exception or parse
failure is caught and routed to the deterministic fallback rules.  The
collaborator round trip is embedded as an `Option Analysis` argument:
`some a` is a successful parse of the LLM reply, `none` is "the collaborator
raised or its output failed to parse".  The f-string messages built by the
fallback are embedded structurally by the inductive `AMessage` (the dynamic
parts are carried unformatted); LLM-produced free text is `AMessage.text`.
-/

/-- Structured embedding of the user-facing message strings built by
`analyze_health`. -/
inductive AMessage where
  | apiDown (platform : String)
  | runningSlow (platform : String) (response_time : ℚ)
  | rateLimitAt (platform : String) (pct : ℚ)
  | healthy (platform : String)
  | text (s : String)
  deriving DecidableEq

/-- The analysis dict returned by `HealthMonitorTool.analyze_health`. -/
structure Analysis where
  should_alert : Bool
  severity : String
  message : AMessage
  recommended_action : String
  issue_detected : Bool
  deriving DecidableEq

/-- One entry of `HealthMonitorTool.baselines`. -/
structure Baseline where
  response_time : ℚ
  error_rate : ℚ
  deriving DecidableEq

/-- The hardcoded `self.baselines` table of `HealthMonitorTool`. -/
def baselines (platform : String) : Option Baseline :=
  if platform = "twitter" then some ⟨250, 1/2⟩
  else if platform = "linkedin" then some ⟨300, 4/5⟩
  else if platform = "instagram" then some ⟨400, 1⟩
  else if platform = "facebook" then some ⟨350, 1⟩
  else none

/-- `baseline.get("response_time", 300)` after
`baseline = self.baselines.get(platform, {})`. -/
def baseline_rt (platform : String) : ℚ :=
  ((baselines platform).map Baseline.response_time).getD 300

/-- The health dict produced by `check_platform_health` and consumed by
`analyze_health`. -/
structure HealthData where
  platform : String
  status : String
  response_time : ℚ
  error_rate : ℚ
  rate_limit_used : ℕ
  rate_limit_total : ℕ
  last_check : String
  details : String
  deriving DecidableEq

/-- `rate_percentage = (rate_used / rate_total * 100) if rate_total > 0 else 0`. -/
def rate_percentage (h : HealthData) : ℚ :=
  if 0 < h.rate_limit_total then
    (h.rate_limit_used : ℚ) / (h.rate_limit_total : ℚ) * 100
  else 0

/-- The deterministic fallback rules in the `except` branch of
`analyze_health`, in source order. -/
def fallback_analysis (h : HealthData) : Analysis :=
  if h.status = "down" then
    { should_alert := true
      severity := "critical"
      message := AMessage.apiDown h.platform
      recommended_action := "Please check your connection. Posts cannot be published."
      issue_detected := true }
  else if h.response_time > baseline_rt h.platform * 3 then
    { should_alert := true
      severity := "warning"
      message := AMessage.runningSlow h.platform h.response_time
      recommended_action := "Posts may be delayed but will succeed"
      issue_detected := true }
  else if rate_percentage h > 85 then
    { should_alert := true
      severity := "info"
      message := AMessage.rateLimitAt h.platform (rate_percentage h)
      recommended_action := "Posting may be throttled soon"
      issue_detected := true }
  else
    { should_alert := false
      severity := "info"
      message := AMessage.healthy h.platform
      recommended_action := "No action needed"
      issue_detected := false }

/-- `HealthMonitorTool.analyze_health`: return the parsed LLM analysis when
the collaborator succeeded, otherwise the deterministic fallback. -/
def analyze_health (h : HealthData) (llm : Option Analysis) : Analysis :=
  match llm with
  | some a => a
  | none => fallback_analysis h

/-!
## Alert deduplication / cooldown filter (`HealthScheduler`)

`last_alert_state` maps platform to the last emitted severity,
`last_alert_time` maps platform to the timestamp (seconds) of the last
emitted alert.  `alert_cooldown` is in minutes.
-/

/-- One entry of the `results` list handed to `_process_platform_alert`:
the health dict with its `analysis` attached. -/
structure HealthResult extends HealthData where
  analysis : Analysis
  deriving DecidableEq

/-- The scheduler's mutable deduplication state. -/
structure SchedState where
  last_alert_state : List (String × String)
  last_alert_time : List (String × ℚ)
  deriving DecidableEq

/-- `self.alert_cooldown = 15` (minutes). -/
def alert_cooldown : ℚ := 15

/-- `HealthScheduler._should_send_alert`.  `now` is `datetime.now()` in
seconds; `minutes_since_last = (now - last).total_seconds() / 60`. -/
def should_send_alert (s : SchedState) (platform severity : String)
    (now : ℚ) : Bool :=
  if severity = "critical" then true
  else if dictGet s.last_alert_state platform ≠ some severity then true
  else
    match dictGet s.last_alert_time platform with
    | none => true
    | some last => decide ((now - last) / 60 ≥ alert_cooldown)

/-- The alert dict built by `_process_platform_alert` on emit. -/
structure Alert where
  platform : String
  severity : String
  message : AMessage
  recommended_action : String
  status : String
  response_time : ℚ
  error_rate : ℚ
  rate_limit_used : ℕ
  rate_limit_total : ℕ
  timestamp : ℚ
  deriving DecidableEq

/-- `HealthScheduler._process_platform_alert` for one platform result:
returns the updated deduplication state and the alert broadcast via
`ws_manager.broadcast_health_alert`, if any. -/
def process_platform_alert (s : SchedState) (result : HealthResult)
    (now : ℚ) : SchedState × Option Alert :=
  let platform := result.platform
  if result.analysis.should_alert = false then
    ({ s with last_alert_state := dictPop s.last_alert_state platform }, none)
  else if should_send_alert s platform result.analysis.severity now then
    let alert : Alert :=
      { platform := platform
        severity := result.analysis.severity
        message := result.analysis.message
        recommended_action := result.analysis.recommended_action
        status := result.status
        response_time := result.response_time
        error_rate := result.error_rate
        rate_limit_used := result.rate_limit_used
        rate_limit_total := result.rate_limit_total
        timestamp := now }
    ({ s with
        last_alert_state := dictSet s.last_alert_state platform result.analysis.severity
        last_alert_time := dictSet s.last_alert_time platform now },
      some alert)
  else (s, none)

/-!
## WebSocket broadcast fan-out (`ConnectionManager`)

WebSocket handles are embedded as natural numbers.  Whether
`connection.send_json(message)` raises for a given subscriber is embedded by
the oracle `fails : Conn → Bool` passed to `broadcast`; the personal sends
performed inside `connect` are returned as a send log (pairs of target
connection and envelope), so that theorems can speak about what was sent and
to whom.  `datetime.now().isoformat()` used for `connected_at` is passed as
an opaque string `now`.
-/

/-- A WebSocket connection handle. -/
abbrev Conn : Type := ℕ

/-- The `connection_metadata` entry for one connection. -/
structure Meta where
  client_id : String
  connected_at : String
  alerts_sent : ℕ
  deriving DecidableEq

/-- The JSON envelopes sent over the push channel, discriminated by their
`type` field. -/
inductive Envelope where
  | connection (client_id : String)
  | history (alerts : List Alert)
  | healthAlert (alert : Alert)
  | healthUpdate (platforms : List HealthResult)
  | ping
  deriving DecidableEq

/-- The mutable state of `ConnectionManager`. -/
structure WSState where
  active_connections : List Conn
  connection_metadata : List (Conn × Meta)
  alert_history : List Alert
  deriving DecidableEq

/-- `self.max_history = 50`. -/
def max_history : ℕ := 50

/-- Python's negative slice `l[-n:]`: the last `n` elements (the whole list
when it is shorter than `n`). -/
def lastN {α : Type} (n : ℕ) (l : List α) : List α :=
  l.drop (l.length - n)

/-- Python truthiness of `client_id or fallback`: `None` and the empty
string both select the fallback. -/
def orFallback (cid : Option String) (fallback : String) : String :=
  match cid with
  | none => fallback
  | some c => if c = "" then fallback else c

/-- `ConnectionManager.connect`: append the connection to the active list,
record its metadata (auto-assigning `client_N` from the post-append length
when no id was given), send the connection-confirmation message, and — when
the history is nonempty — send the last 10 history entries, both only to the
new subscriber.  Returns the new state and the personal-send log. -/
def connect (s : WSState) (w : Conn) (cid : Option String) (now : String) :
    WSState × List (Conn × Envelope) :=
  let active := s.active_connections ++ [w]
  let id := orFallback cid ("client_" ++ toString active.length)
  let meta : Meta := { client_id := id, connected_at := now, alerts_sent := 0 }
  let s1 : WSState :=
    { s with
        active_connections := active
        connection_metadata := dictSet s.connection_metadata w meta }
  let log := [(w, Envelope.connection id)]
  if s1.alert_history ≠ [] then
    (s1, log ++ [(w, Envelope.history (lastN 10 s1.alert_history))])
  else (s1, log)

/-- `ConnectionManager.disconnect`: idempotent removal — remove the first
occurrence from the active list and pop the metadata entry, a no-op when the
connection is not active. -/
def disconnect (s : WSState) (w : Conn) : WSState :=
  if w ∈ s.active_connections then
    { s with
        active_connections := s.active_connections.erase w
        connection_metadata := dictPop s.connection_metadata w }
  else s

/-- `self.connection_metadata[connection]["alerts_sent"] += 1`, guarded by
`if connection in self.connection_metadata`. -/
def bump_meta (d : List (Conn × Meta)) (c : Conn) : List (Conn × Meta) :=
  d.map fun p =>
    if p.1 = c then (p.1, { p.2 with alerts_sent := p.2.alerts_sent + 1 }) else p

/-- The `for connection in self.active_connections` loop of `broadcast`:
iterate over the (unchanging) active list, bumping `alerts_sent` on a
successful send and collecting failing connections in `disconnected`.
Returns the updated metadata, the successfully delivered connections and the
`disconnected` list, both in iteration order. -/
def broadcastLoop (fails : Conn → Bool) (conns : List Conn)
    (meta : List (Conn × Meta)) :
    List (Conn × Meta) × List Conn × List Conn :=
  match conns with
  | [] => (meta, [], [])
  | c :: rest =>
    if fails c then
      let r := broadcastLoop fails rest meta
      (r.1, r.2.1, c :: r.2.2)
    else
      let r := broadcastLoop fails rest (bump_meta meta c)
      (r.1, c :: r.2.1, r.2.2)

/-- `ConnectionManager.broadcast`: early return when there are no active
connections; otherwise send to every active connection, collecting failures,
and only after the full pass disconnect the failing ones.  Returns the new
state and the list of connections the message was delivered to. -/
def broadcast (fails : Conn → Bool) (msg : Envelope) (s : WSState) :
    WSState × List Conn :=
  if s.active_connections = [] then (s, [])
  else
    let r := broadcastLoop fails s.active_connections s.connection_metadata
    let s1 : WSState := { s with connection_metadata := r.1 }
    (r.2.2.foldl disconnect s1, r.2.1)

/-- `ConnectionManager.broadcast_health_alert`: append the alert to the
history, trim the history to its last `max_history` entries when it exceeds
the cap, then broadcast a `health_alert` envelope. -/
def broadcast_health_alert (fails : Conn → Bool) (s : WSState)
    (alert : Alert) : WSState × List Conn :=
  let h1 := s.alert_history ++ [alert]
  let h2 := if h1.length > max_history then lastN max_history h1 else h1
  broadcast fails (Envelope.healthAlert alert) { s with alert_history := h2 }

/-- The dict returned by `ConnectionManager.get_stats`. -/
structure Stats where
  active_connections : ℕ
  total_alerts : ℕ
  clients : List (String × String × ℕ)
  deriving DecidableEq

/-- `ConnectionManager.get_stats`. -/
def get_stats (s : WSState) : Stats :=
  { active_connections := s.active_connections.length
    total_alerts := s.alert_history.length
    clients := s.connection_metadata.map fun p =>
      (p.2.client_id, p.2.connected_at, p.2.alerts_sent) }

/-- The implicit well-formedness invariant of `ConnectionManager`: the
active list holds no duplicates, the metadata keys hold no duplicates, and a
connection is active exactly when it has a metadata entry. -/
def ManagerInv (s : WSState) : Prop :=
  s.active_connections.Nodup ∧
  (s.connection_metadata.map Prod.fst).Nodup ∧
  ∀ c : Conn, c ∈ s.active_connections ↔ c ∈ s.connection_metadata.map Prod.fst

/-!
## Dictionary lemmas
-/

theorem dictGet_eq_none_of_not_mem {α β : Type} [DecidableEq α]
    (d : List (α × β)) (k : α) (h : k ∉ d.map Prod.fst) :
    dictGet d k = none := by
  induction d with
  | nil => rfl
  | cons p rest ih =>
    simp only [List.map_cons, List.mem_cons, not_or] at h
    simp only [dictGet]
    rw [if_neg (fun hk => h.1 hk.symm)]
    exact ih h.2

theorem dictGet_dictPop_self {α β : Type} [DecidableEq α]
    (d : List (α × β)) (k : α) (h : (d.map Prod.fst).Nodup) :
    dictGet (dictPop d k) k = none := by
  induction d with
  | nil => rfl
  | cons p rest ih =>
    simp only [List.map_cons, List.nodup_cons] at h
    by_cases hk : p.1 = k
    · simp only [dictPop, if_pos hk]
      exact dictGet_eq_none_of_not_mem rest k (hk ▸ h.1)
    · simp only [dictPop, if_neg hk, dictGet]
      exact ih h.2

theorem dictGet_dictSet_self {α β : Type} [DecidableEq α]
    (d : List (α × β)) (k : α) (v : β) :
    dictGet (dictSet d k v) k = some v := by
  induction d with
  | nil => simp [dictSet, dictGet]
  | cons p rest ih =>
    by_cases hk : p.1 = k <;> simp [dictSet, dictGet, hk, ih]

/-!
## Claims about the deduplication / cooldown filter
-/

/-- Claim C1: for every platform and every prior deduplication state, if an
assessment has `should_alert = true` and `severity = "critical"`, then
`_should_send_alert` returns true and the alert is emitted — critical alerts
are never suppressed by the cooldown. -/
theorem claim_C1_critical_never_suppressed (s : SchedState) (r : HealthResult)
    (now : ℚ)
    (hsev : r.analysis.severity = "critical")
    (halert : r.analysis.should_alert = true) :
    should_send_alert s r.platform r.analysis.severity now = true ∧
    (process_platform_alert s r now).2.isSome = true := by
  have hsend : should_send_alert s r.platform r.analysis.severity now = true := by
    simp [should_send_alert, hsev]
  refine ⟨hsend, ?_⟩
  simp [process_platform_alert, halert, hsend]

/-- Witness for C1 at a concrete prior state (a stored non-critical severity
and a last-alert timestamp seconds ago). -/
theorem claim_C1_witness :
    ({ platform := "twitter", status := "down", response_time := 0,
       error_rate := 100, rate_limit_used := 0, rate_limit_total := 1000,
       last_check := "", details := "",
       analysis := { should_alert := true, severity := "critical",
                     message := AMessage.apiDown "twitter",
                     recommended_action := "check", issue_detected := true } }
      : HealthResult).analysis.severity = "critical" ∧
    (should_send_alert ⟨[("twitter", "warning")], [("twitter", 0)]⟩ "twitter"
        "critical" 60 = true ∧
      (process_platform_alert ⟨[("twitter", "warning")], [("twitter", 0)]⟩
        { platform := "twitter", status := "down", response_time := 0,
          error_rate := 100, rate_limit_used := 0, rate_limit_total := 1000,
          last_check := "", details := "",
          analysis := { should_alert := true, severity := "critical",
                        message := AMessage.apiDown "twitter",
                        recommended_action := "check", issue_detected := true } }
        60).2.isSome = true) :=
  ⟨by decide,
    claim_C1_critical_never_suppressed
      ⟨[("twitter", "warning")], [("twitter", 0)]⟩
      { platform := "twitter", status := "down", response_time := 0,
        error_rate := 100, rate_limit_used := 0, rate_limit_total := 1000,
        last_check := "", details := "",
        analysis := { should_alert := true, severity := "critical",
                      message := AMessage.apiDown "twitter",
                      recommended_action := "check", issue_detected := true } }
      60 (by decide) (by decide)⟩

/-- Claim C2: when the stored last severity for the platform equals the
incoming (non-critical) severity and a last-alert timestamp is stored, the
filter emits exactly when at least the 15-minute cooldown has elapsed since
that timestamp, and otherwise suppresses the alert (no emit, state
unchanged). -/
theorem claim_C2_cooldown_window (s : SchedState) (r : HealthResult)
    (now t : ℚ)
    (hsame : dictGet s.last_alert_state r.platform = some r.analysis.severity)
    (hncrit : r.analysis.severity ≠ "critical")
    (htime : dictGet s.last_alert_time r.platform = some t)
    (halert : r.analysis.should_alert = true) :
    (should_send_alert s r.platform r.analysis.severity now = true ↔
      alert_cooldown ≤ (now - t) / 60) ∧
    (alert_cooldown ≤ (now - t) / 60 →
      (process_platform_alert s r now).2.isSome = true) ∧
    ((now - t) / 60 < alert_cooldown →
      process_platform_alert s r now = (s, none)) := by
  have hsend : should_send_alert s r.platform r.analysis.severity now =
      decide ((now - t) / 60 ≥ alert_cooldown) := by
    simp [should_send_alert, hsame, hncrit, htime]
  refine ⟨?_, ?_, ?_⟩
  · rw [hsend]
    exact decide_eq_true_iff
  · intro hcool
    have h1 : should_send_alert s r.platform r.analysis.severity now = true := by
      rw [hsend]; exact decide_eq_true hcool
    simp [process_platform_alert, halert, h1]
  · intro hcool
    have h1 : should_send_alert s r.platform r.analysis.severity now = false := by
      rw [hsend]
      exact decide_eq_false (not_le.mpr hcool)
    simp [process_platform_alert, halert, h1]

/-- Witness for C2: a repeated "warning" for linkedin with a stored alert at
time 0, queried at 16 minutes (960 s). -/
theorem claim_C2_witness :
    dictGet ([("linkedin", "warning")] : List (String × String)) "linkedin" =
      some "warning" ∧
    ((should_send_alert ⟨[("linkedin", "warning")], [("linkedin", 0)]⟩
        "linkedin" "warning" 960 = true ↔
        alert_cooldown ≤ ((960 : ℚ) - 0) / 60) ∧
      (alert_cooldown ≤ ((960 : ℚ) - 0) / 60 →
        (process_platform_alert ⟨[("linkedin", "warning")], [("linkedin", 0)]⟩
          { platform := "linkedin", status := "healthy", response_time := 1200,
            error_rate := 0, rate_limit_used := 80, rate_limit_total := 100,
            last_check := "", details := "",
            analysis := { should_alert := true, severity := "warning",
                          message := AMessage.runningSlow "linkedin" 1200,
                          recommended_action := "wait", issue_detected := true } }
          960).2.isSome = true) ∧
      (((960 : ℚ) - 0) / 60 < alert_cooldown →
        process_platform_alert ⟨[("linkedin", "warning")], [("linkedin", 0)]⟩
          { platform := "linkedin", status := "healthy", response_time := 1200,
            error_rate := 0, rate_limit_used := 80, rate_limit_total := 100,
            last_check := "", details := "",
            analysis := { should_alert := true, severity := "warning",
                          message := AMessage.runningSlow "linkedin" 1200,
                          recommended_action := "wait", issue_detected := true } }
          960 = (⟨[("linkedin", "warning")], [("linkedin", 0)]⟩, none))) :=
  ⟨by decide,
    claim_C2_cooldown_window ⟨[("linkedin", "warning")], [("linkedin", 0)]⟩
      { platform := "linkedin", status := "healthy", response_time := 1200,
        error_rate := 0, rate_limit_used := 80, rate_limit_total := 100,
        last_check := "", details := "",
        analysis := { should_alert := true, severity := "warning",
                      message := AMessage.runningSlow "linkedin" 1200,
                      recommended_action := "wait", issue_detected := true } }
      960 0 (by decide) (by decide) (by decide) (by decide)⟩

/-- Claim C3 counterexample: processing a `should_alert = false` result for
twitter (stored severity "warning", stored last-alert time 0) emits nothing
and removes the stored severity, but the stored `last_alert_time` entry for
twitter is NOT removed — refuting the claim that the entire per-platform
cooldown state (both fields) is cleared. -/
theorem claim_C3_counterexample :
    ({ platform := "twitter", status := "healthy", response_time := 200,
       error_rate := 0, rate_limit_used := 10, rate_limit_total := 1000,
       last_check := "", details := "",
       analysis := { should_alert := false, severity := "info",
                     message := AMessage.healthy "twitter",
                     recommended_action := "none", issue_detected := false } }
      : HealthResult).analysis.should_alert = false ∧
    (process_platform_alert ⟨[("twitter", "warning")], [("twitter", 0)]⟩
      { platform := "twitter", status := "healthy", response_time := 200,
        error_rate := 0, rate_limit_used := 10, rate_limit_total := 1000,
        last_check := "", details := "",
        analysis := { should_alert := false, severity := "info",
                      message := AMessage.healthy "twitter",
                      recommended_action := "none", issue_detected := false } }
      300).2 = none ∧
    dictGet (process_platform_alert ⟨[("twitter", "warning")], [("twitter", 0)]⟩
      { platform := "twitter", status := "healthy", response_time := 200,
        error_rate := 0, rate_limit_used := 10, rate_limit_total := 1000,
        last_check := "", details := "",
        analysis := { should_alert := false, severity := "info",
                      message := AMessage.healthy "twitter",
                      recommended_action := "none", issue_detected := false } }
      300).1.last_alert_state "twitter" = none ∧
    dictGet (process_platform_alert ⟨[("twitter", "warning")], [("twitter", 0)]⟩
      { platform := "twitter", status := "healthy", response_time := 200,
        error_rate := 0, rate_limit_used := 10, rate_limit_total := 1000,
        last_check := "", details := "",
        analysis := { should_alert := false, severity := "info",
                      message := AMessage.healthy "twitter",
                      recommended_action := "none", issue_detected := false } }
      300).1.last_alert_time "twitter" = some 0 := by
  refine ⟨rfl, rfl, rfl, rfl⟩

/-- Claim C3 (amended): when a cycle's assessment for a platform has
`should_alert = false`, processing it emits nothing and removes the stored
last severity for that platform, while the stored `last_alert_time` map is
left untouched. -/
theorem claim_C3_clear_severity_only (s : SchedState) (r : HealthResult)
    (now : ℚ)
    (hkeys : (s.last_alert_state.map Prod.fst).Nodup)
    (hno : r.analysis.should_alert = false) :
    (process_platform_alert s r now).2 = none ∧
    dictGet (process_platform_alert s r now).1.last_alert_state r.platform =
      none ∧
    (process_platform_alert s r now).1.last_alert_time = s.last_alert_time := by
  refine ⟨?_, ?_, ?_⟩ <;>
    simp [process_platform_alert, hno, dictGet_dictPop_self _ _ hkeys]

/-- Witness for C3 (amended) at the same concrete state as the
counterexample. -/
theorem claim_C3_witness :
    ((([("twitter", "warning")] : List (String × String)).map Prod.fst).Nodup ∧
      ({ platform := "twitter", status := "healthy", response_time := 200,
         error_rate := 0, rate_limit_used := 10, rate_limit_total := 1000,
         last_check := "", details := "",
         analysis := { should_alert := false, severity := "info",
                       message := AMessage.healthy "twitter",
                       recommended_action := "none", issue_detected := false } }
        : HealthResult).analysis.should_alert = false) ∧
    ((process_platform_alert ⟨[("twitter", "warning")], [("twitter", 0)]⟩
        { platform := "twitter", status := "healthy", response_time := 200,
          error_rate := 0, rate_limit_used := 10, rate_limit_total := 1000,
          last_check := "", details := "",
          analysis := { should_alert := false, severity := "info",
                        message := AMessage.healthy "twitter",
                        recommended_action := "none", issue_detected := false } }
        300).2 = none ∧
      dictGet (process_platform_alert ⟨[("twitter", "warning")], [("twitter", 0)]⟩
        { platform := "twitter", status := "healthy", response_time := 200,
          error_rate := 0, rate_limit_used := 10, rate_limit_total := 1000,
          last_check := "", details := "",
          analysis := { should_alert := false, severity := "info",
                        message := AMessage.healthy "twitter",
                        recommended_action := "none", issue_detected := false } }
        300).1.last_alert_state "twitter" = none ∧
      (process_platform_alert ⟨[("twitter", "warning")], [("twitter", 0)]⟩
        { platform := "twitter", status := "healthy", response_time := 200,
          error_rate := 0, rate_limit_used := 10, rate_limit_total := 1000,
          last_check := "", details := "",
          analysis := { should_alert := false, severity := "info",
                        message := AMessage.healthy "twitter",
                        recommended_action := "none", issue_detected := false } }
        300).1.last_alert_time = [("twitter", 0)]) :=
  ⟨⟨by decide, by decide⟩,
    claim_C3_clear_severity_only ⟨[("twitter", "warning")], [("twitter", 0)]⟩
      { platform := "twitter", status := "healthy", response_time := 200,
        error_rate := 0, rate_limit_used := 10, rate_limit_total := 1000,
        last_check := "", details := "",
        analysis := { should_alert := false, severity := "info",
                      message := AMessage.healthy "twitter",
                      recommended_action := "none", issue_detected := false } }
      300 (by decide) (by decide)⟩

/-- Claim C4: after a `should_alert = false` result clears a platform's
tracked severity, the next `should_alert = true` assessment for that
platform is emitted immediately, for any severity (including the one emitted
before the clear) and at any time (no cooldown applies). -/
theorem claim_C4_reoccurrence_is_new (s : SchedState) (r r2 : HealthResult)
    (now now2 : ℚ)
    (hkeys : (s.last_alert_state.map Prod.fst).Nodup)
    (hclear : r.analysis.should_alert = false)
    (hplat : r2.platform = r.platform)
    (halert2 : r2.analysis.should_alert = true) :
    should_send_alert (process_platform_alert s r now).1 r2.platform
      r2.analysis.severity now2 = true ∧
    (process_platform_alert (process_platform_alert s r now).1 r2
      now2).2.isSome = true := by
  have hs1 : (process_platform_alert s r now).1 =
      { s with last_alert_state := dictPop s.last_alert_state r.platform } := by
    simp [process_platform_alert, hclear]
  have hget : dictGet (dictPop s.last_alert_state r.platform) r2.platform =
      none := by
    rw [hplat]
    exact dictGet_dictPop_self _ _ hkeys
  have hsend : should_send_alert (process_platform_alert s r now).1 r2.platform
      r2.analysis.severity now2 = true := by
    rw [hs1]
    by_cases hc : r2.analysis.severity = "critical" <;>
      simp [should_send_alert, hc, hget]
  refine ⟨hsend, ?_⟩
  generalize hS : (process_platform_alert s r now).1 = s1 at hsend ⊢
  simp [process_platform_alert, halert2, hsend]

/-- Witness for C4: twitter recovers ("warning" cleared at time 300), then a
new "warning" arrives 60 seconds later (far inside the 15-minute window) and
is still emitted. -/
theorem claim_C4_witness :
    ((([("twitter", "warning")] : List (String × String)).map Prod.fst).Nodup ∧
      ("twitter" : String) = "twitter") ∧
    (should_send_alert
        (process_platform_alert ⟨[("twitter", "warning")], [("twitter", 0)]⟩
          { platform := "twitter", status := "healthy", response_time := 200,
            error_rate := 0, rate_limit_used := 10, rate_limit_total := 1000,
            last_check := "", details := "",
            analysis := { should_alert := false, severity := "info",
                          message := AMessage.healthy "twitter",
                          recommended_action := "none", issue_detected := false } }
          300).1
        "twitter" "warning" 360 = true ∧
      (process_platform_alert
        (process_platform_alert ⟨[("twitter", "warning")], [("twitter", 0)]⟩
          { platform := "twitter", status := "healthy", response_time := 200,
            error_rate := 0, rate_limit_used := 10, rate_limit_total := 1000,
            last_check := "", details := "",
            analysis := { should_alert := false, severity := "info",
                          message := AMessage.healthy "twitter",
                          recommended_action := "none", issue_detected := false } }
          300).1
        { platform := "twitter", status := "degraded", response_time := 900,
          error_rate := 5, rate_limit_used := 10, rate_limit_total := 1000,
          last_check := "", details := "",
          analysis := { should_alert := true, severity := "warning",
                        message := AMessage.runningSlow "twitter" 900,
                        recommended_action := "wait", issue_detected := true } }
        360).2.isSome = true) :=
  ⟨⟨by decide, rfl⟩,
    claim_C4_reoccurrence_is_new ⟨[("twitter", "warning")], [("twitter", 0)]⟩
      { platform := "twitter", status := "healthy", response_time := 200,
        error_rate := 0, rate_limit_used := 10, rate_limit_total := 1000,
        last_check := "", details := "",
        analysis := { should_alert := false, severity := "info",
                      message := AMessage.healthy "twitter",
                      recommended_action := "none", issue_detected := false } }
      { platform := "twitter", status := "degraded", response_time := 900,
        error_rate := 5, rate_limit_used := 10, rate_limit_total := 1000,
        last_check := "", details := "",
        analysis := { should_alert := true, severity := "warning",
                      message := AMessage.runningSlow "twitter" 900,
                      recommended_action := "wait", issue_detected := true } }
      300 360 (by decide) (by decide) rfl (by decide)⟩

/-!
## Claim about the analyzer fallback
-/

/-- Claim C5: when the text-generation collaborator raises or its output
fails to parse (`llm = none`), `analyze_health` still returns an assessment,
computed by the deterministic rules in source order: status "down" gives
critical/alert, response time above 3 times the baseline gives
warning/alert, rate-limit usage above 85% gives info/alert, and otherwise
info/no-alert with the healthy message. -/
theorem claim_C5_fallback_assessment (h : HealthData) (llm : Option Analysis)
    (hfail : llm = none) :
    analyze_health h llm = fallback_analysis h ∧
    (h.status = "down" →
      (analyze_health h llm).severity = "critical" ∧
      (analyze_health h llm).should_alert = true) ∧
    (h.status ≠ "down" → h.response_time > baseline_rt h.platform * 3 →
      (analyze_health h llm).severity = "warning" ∧
      (analyze_health h llm).should_alert = true) ∧
    (h.status ≠ "down" → ¬h.response_time > baseline_rt h.platform * 3 →
      rate_percentage h > 85 →
      (analyze_health h llm).severity = "info" ∧
      (analyze_health h llm).should_alert = true) ∧
    (h.status ≠ "down" → ¬h.response_time > baseline_rt h.platform * 3 →
      ¬rate_percentage h > 85 →
      (analyze_health h llm).should_alert = false ∧
      (analyze_health h llm).severity = "info" ∧
      (analyze_health h llm).message = AMessage.healthy h.platform) := by
  subst hfail
  refine ⟨rfl, ?_, ?_, ?_, ?_⟩
  · intro hdown
    simp [analyze_health, fallback_analysis, hdown]
  · intro hnd hrt
    simp [analyze_health, fallback_analysis, hnd, hrt]
  · intro hnd hnrt hrate
    simp [analyze_health, fallback_analysis, hnd, hnrt, hrate]
  · intro hnd hnrt hnrate
    simp [analyze_health, fallback_analysis, hnd, hnrt, hnrate]

/-- Witness for C5 at the spec's concrete scenario: twitter down with 100%
error rate, collaborator failed. -/
theorem claim_C5_witness :
    (none : Option Analysis) = none ∧
    (analyze_health
        { platform := "twitter", status := "down", response_time := 0,
          error_rate := 100, rate_limit_used := 0, rate_limit_total := 1000,
          last_check := "", details := "" } none =
      fallback_analysis
        { platform := "twitter", status := "down", response_time := 0,
          error_rate := 100, rate_limit_used := 0, rate_limit_total := 1000,
          last_check := "", details := "" } ∧
      (("down" : String) = "down" →
        (analyze_health
          { platform := "twitter", status := "down", response_time := 0,
            error_rate := 100, rate_limit_used := 0, rate_limit_total := 1000,
            last_check := "", details := "" } none).severity = "critical" ∧
        (analyze_health
          { platform := "twitter", status := "down", response_time := 0,
            error_rate := 100, rate_limit_used := 0, rate_limit_total := 1000,
            last_check := "", details := "" } none).should_alert = true) ∧
      (("down" : String) ≠ "down" → (0 : ℚ) > baseline_rt "twitter" * 3 →
        (analyze_health
          { platform := "twitter", status := "down", response_time := 0,
            error_rate := 100, rate_limit_used := 0, rate_limit_total := 1000,
            last_check := "", details := "" } none).severity = "warning" ∧
        (analyze_health
          { platform := "twitter", status := "down", response_time := 0,
            error_rate := 100, rate_limit_used := 0, rate_limit_total := 1000,
            last_check := "", details := "" } none).should_alert = true) ∧
      (("down" : String) ≠ "down" → ¬(0 : ℚ) > baseline_rt "twitter" * 3 →
        rate_percentage
          { platform := "twitter", status := "down", response_time := 0,
            error_rate := 100, rate_limit_used := 0, rate_limit_total := 1000,
            last_check := "", details := "" } > 85 →
        (analyze_health
          { platform := "twitter", status := "down", response_time := 0,
            error_rate := 100, rate_limit_used := 0, rate_limit_total := 1000,
            last_check := "", details := "" } none).severity = "info" ∧
        (analyze_health
          { platform := "twitter", status := "down", response_time := 0,
            error_rate := 100, rate_limit_used := 0, rate_limit_total := 1000,
            last_check := "", details := "" } none).should_alert = true) ∧
      (("down" : String) ≠ "down" → ¬(0 : ℚ) > baseline_rt "twitter" * 3 →
        ¬rate_percentage
          { platform := "twitter", status := "down", response_time := 0,
            error_rate := 100, rate_limit_used := 0, rate_limit_total := 1000,
            last_check := "", details := "" } > 85 →
        (analyze_health
          { platform := "twitter", status := "down", response_time := 0,
            error_rate := 100, rate_limit_used := 0, rate_limit_total := 1000,
            last_check := "", details := "" } none).should_alert = false ∧
        (analyze_health
          { platform := "twitter", status := "down", response_time := 0,
            error_rate := 100, rate_limit_used := 0, rate_limit_total := 1000,
            last_check := "", details := "" } none).severity = "info" ∧
        (analyze_health
          { platform := "twitter", status := "down", response_time := 0,
            error_rate := 100, rate_limit_used := 0, rate_limit_total := 1000,
            last_check := "", details := "" } none).message =
          AMessage.healthy "twitter")) :=
  ⟨rfl,
    claim_C5_fallback_assessment
      { platform := "twitter", status := "down", response_time := 0,
        error_rate := 100, rate_limit_used := 0, rate_limit_total := 1000,
        last_check := "", details := "" } none rfl⟩

/-!
## Lemmas about the broadcast fan-out
-/

theorem broadcastLoop_delivered (fails : Conn → Bool) (conns : List Conn) :
    ∀ meta : List (Conn × Meta),
      (broadcastLoop fails conns meta).2.1 =
        conns.filter fun c => !fails c := by
  induction conns with
  | nil => intro m; rfl
  | cons c rest ih =>
    intro m
    by_cases hc : fails c = true <;>
      simp [broadcastLoop, hc, List.filter_cons, ih]

theorem broadcastLoop_disconnected (fails : Conn → Bool) (conns : List Conn) :
    ∀ meta : List (Conn × Meta),
      (broadcastLoop fails conns meta).2.2 = conns.filter fails := by
  induction conns with
  | nil => intro m; rfl
  | cons c rest ih =>
    intro m
    by_cases hc : fails c = true <;>
      simp [broadcastLoop, hc, List.filter_cons, ih]

theorem disconnect_active (s : WSState) (w : Conn) :
    (disconnect s w).active_connections = s.active_connections.erase w := by
  by_cases hw : w ∈ s.active_connections
  · simp [disconnect, hw]
  · simp [disconnect, hw, List.erase_of_not_mem hw]

theorem disconnect_history (s : WSState) (w : Conn) :
    (disconnect s w).alert_history = s.alert_history := by
  by_cases hw : w ∈ s.active_connections <;> simp [disconnect, hw]

theorem foldl_disconnect_active (L : List Conn) :
    ∀ s : WSState, (L.foldl disconnect s).active_connections =
      L.foldl (fun a c => a.erase c) s.active_connections := by
  induction L with
  | nil => intro s; rfl
  | cons c rest ih =>
    intro s
    rw [List.foldl_cons, List.foldl_cons, ih, disconnect_active]

theorem foldl_disconnect_history (L : List Conn) :
    ∀ s : WSState, (L.foldl disconnect s).alert_history = s.alert_history := by
  induction L with
  | nil => intro s; rfl
  | cons c rest ih =>
    intro s
    rw [List.foldl_cons, ih, disconnect_history]

theorem mem_of_mem_foldl_erase {x : Conn} (L : List Conn) :
    ∀ A : List Conn, x ∈ L.foldl (fun a c => a.erase c) A → x ∈ A := by
  induction L with
  | nil => intro A h; exact h
  | cons c rest ih =>
    intro A h
    exact List.mem_of_mem_erase (ih _ h)

theorem not_mem_foldl_erase {c : Conn} (L : List Conn) :
    ∀ A : List Conn, A.Nodup → c ∈ L →
      c ∉ L.foldl (fun a x => a.erase x) A := by
  induction L with
  | nil =>
    intro A _ h
    cases h
  | cons d rest ih =>
    intro A hA hc
    rcases List.mem_cons.mp hc with h | h
    · subst h
      intro hmem
      exact (hA.not_mem_erase) (mem_of_mem_foldl_erase rest _ hmem)
    · exact ih (A.erase d) (hA.erase d) h

theorem broadcast_history (fails : Conn → Bool) (msg : Envelope)
    (s : WSState) :
    (broadcast fails msg s).1.alert_history = s.alert_history := by
  by_cases hempty : s.active_connections = [] <;>
    simp [broadcast, hempty, foldl_disconnect_history]

/-!
## Claims about the broadcast fan-out
-/

/-- Claim C6: `broadcast` attempts delivery to every active subscriber from
the unmutated active list — the delivered subscribers are exactly the
non-failing ones in their original order, failing subscribers are only
collected during the pass — and every failing subscriber is absent from the
active set when `broadcast` returns. -/
theorem claim_C6_broadcast_isolation (fails : Conn → Bool) (msg : Envelope)
    (s : WSState) (hnd : s.active_connections.Nodup) :
    (broadcast fails msg s).2 =
      s.active_connections.filter (fun c => !fails c) ∧
    ∀ c ∈ s.active_connections, fails c = true →
      c ∉ (broadcast fails msg s).1.active_connections := by
  by_cases hempty : s.active_connections = []
  · constructor
    · simp [broadcast, hempty]
    · intro c hc
      rw [hempty] at hc
      cases hc
  · constructor
    · simp [broadcast, hempty, broadcastLoop_delivered]
    · intro c hc hf
      have h1 : (broadcast fails msg s).1.active_connections =
          (s.active_connections.filter fails).foldl (fun a x => a.erase x)
            s.active_connections := by
        simp only [broadcast, if_neg hempty]
        rw [foldl_disconnect_active, broadcastLoop_disconnected]
      rw [h1]
      exact not_mem_foldl_erase _ _ hnd (List.mem_filter.mpr ⟨hc, hf⟩)

/-- Witness for C6: three subscribers of which the middle one fails — the
other two receive the message, the failing one ends up removed. -/
theorem claim_C6_witness :
    ([1, 2, 3] : List Conn).Nodup ∧
    ((broadcast (fun c => decide (c = 2)) Envelope.ping
        ⟨[1, 2, 3],
          [(1, ⟨"client_1", "", 0⟩), (2, ⟨"client_2", "", 0⟩),
            (3, ⟨"client_3", "", 0⟩)], []⟩).2 =
      ([1, 2, 3] : List Conn).filter (fun c => !decide (c = 2)) ∧
      ∀ c ∈ ([1, 2, 3] : List Conn), decide (c = 2) = true →
        c ∉ (broadcast (fun c => decide (c = 2)) Envelope.ping
          ⟨[1, 2, 3],
            [(1, ⟨"client_1", "", 0⟩), (2, ⟨"client_2", "", 0⟩),
              (3, ⟨"client_3", "", 0⟩)], []⟩).1.active_connections) :=
  ⟨by decide,
    claim_C6_broadcast_isolation (fun c => decide (c = 2)) Envelope.ping
      ⟨[1, 2, 3],
        [(1, ⟨"client_1", "", 0⟩), (2, ⟨"client_2", "", 0⟩),
          (3, ⟨"client_3", "", 0⟩)], []⟩ (by decide)⟩

/-- Claim C7: `broadcast_health_alert` keeps the history bounded by 50 and
FIFO: from any history of at most 50 entries the appended history stays at
most 50, and from a full history of exactly 50 entries the oldest entry is
evicted and the most recent 50 (the old tail plus the new alert) are kept in
insertion order. -/
theorem claim_C7_history_ring_buffer (fails : Conn → Bool) (s : WSState)
    (alert : Alert) (hlen : s.alert_history.length ≤ 50) :
    (broadcast_health_alert fails s alert).1.alert_history.length ≤ 50 ∧
    (s.alert_history.length = 50 →
      (broadcast_health_alert fails s alert).1.alert_history =
        s.alert_history.drop 1 ++ [alert]) := by
  have hh : (broadcast_health_alert fails s alert).1.alert_history =
      if (s.alert_history ++ [alert]).length > max_history
      then lastN max_history (s.alert_history ++ [alert])
      else s.alert_history ++ [alert] := by
    simp only [broadcast_health_alert]
    rw [broadcast_history]
  rcases Nat.lt_or_ge s.alert_history.length 50 with hlt | hge
  · have hcond : ¬(s.alert_history ++ [alert]).length > max_history := by
      simp only [List.length_append, List.length_singleton, max_history]
      omega
    rw [hh, if_neg hcond]
    constructor
    · simp only [List.length_append, List.length_singleton]
      omega
    · intro h50
      omega
  · have h50 : s.alert_history.length = 50 := le_antisymm hlen hge
    have hcond : (s.alert_history ++ [alert]).length > max_history := by
      simp only [List.length_append, List.length_singleton, max_history]
      omega
    rw [hh, if_pos hcond]
    have hdrop : lastN max_history (s.alert_history ++ [alert]) =
        s.alert_history.drop 1 ++ [alert] := by
      simp only [lastN, List.length_append, List.length_singleton, h50,
        max_history]
      rw [List.drop_append_eq_append_drop, h50]
      norm_num
    rw [hdrop]
    constructor
    · simp only [List.length_append, List.length_singleton, List.length_drop,
        h50]
      omega
    · intro _
      rfl

/-- Witness for C7 at a full history of 50 identical entries and no active
subscribers. -/
theorem claim_C7_witness :
    (List.replicate 50
      ({ platform := "twitter", severity := "warning",
         message := AMessage.text "m", recommended_action := "a",
         status := "degraded", response_time := 800, error_rate := 5,
         rate_limit_used := 450, rate_limit_total := 1000, timestamp := 0 }
        : Alert)).length ≤ 50 ∧
    ((broadcast_health_alert (fun _ => false)
        ⟨[], [],
          List.replicate 50
            { platform := "twitter", severity := "warning",
              message := AMessage.text "m", recommended_action := "a",
              status := "degraded", response_time := 800, error_rate := 5,
              rate_limit_used := 450, rate_limit_total := 1000,
              timestamp := 0 }⟩
        { platform := "linkedin", severity := "critical",
          message := AMessage.apiDown "linkedin",
          recommended_action := "check", status := "down",
          response_time := 0, error_rate := 100, rate_limit_used := 0,
          rate_limit_total := 1000,
          timestamp := 1 }).1.alert_history.length ≤ 50 ∧
      ((List.replicate 50
          ({ platform := "twitter", severity := "warning",
             message := AMessage.text "m", recommended_action := "a",
             status := "degraded", response_time := 800, error_rate := 5,
             rate_limit_used := 450, rate_limit_total := 1000, timestamp := 0 }
            : Alert)).length = 50 →
        (broadcast_health_alert (fun _ => false)
          ⟨[], [],
            List.replicate 50
              { platform := "twitter", severity := "warning",
                message := AMessage.text "m", recommended_action := "a",
                status := "degraded", response_time := 800, error_rate := 5,
                rate_limit_used := 450, rate_limit_total := 1000,
                timestamp := 0 }⟩
          { platform := "linkedin", severity := "critical",
            message := AMessage.apiDown "linkedin",
            recommended_action := "check", status := "down",
            response_time := 0, error_rate := 100, rate_limit_used := 0,
            rate_limit_total := 1000, timestamp := 1 }).1.alert_history =
          (List.replicate 50
            ({ platform := "twitter", severity := "warning",
               message := AMessage.text "m", recommended_action := "a",
               status := "degraded", response_time := 800, error_rate := 5,
               rate_limit_used := 450, rate_limit_total := 1000,
               timestamp := 0 }
              : Alert)).drop 1 ++
            [{ platform := "linkedin", severity := "critical",
               message := AMessage.apiDown "linkedin",
               recommended_action := "check", status := "down",
               response_time := 0, error_rate := 100, rate_limit_used := 0,
               rate_limit_total := 1000, timestamp := 1 }])) :=
  ⟨by decide,
    claim_C7_history_ring_buffer (fun _ => false)
      ⟨[], [],
        List.replicate 50
          { platform := "twitter", severity := "warning",
            message := AMessage.text "m", recommended_action := "a",
            status := "degraded", response_time := 800, error_rate := 5,
            rate_limit_used := 450, rate_limit_total := 1000, timestamp := 0 }⟩
      { platform := "linkedin", severity := "critical",
        message := AMessage.apiDown "linkedin", recommended_action := "check",
        status := "down", response_time := 0, error_rate := 100,
        rate_limit_used := 0, rate_limit_total := 1000, timestamp := 1 }
      (by decide)⟩

theorem lastN_length_le {α : Type} (n : ℕ) (l : List α) :
    (lastN n l).length ≤ n := by
  simp only [lastN, List.length_drop]
  omega

/-- Claim C8: on `connect`, every personal message goes only to the new
subscriber, and the history catch-up message carries exactly the last 10
history entries — so a new subscriber never receives more than 10 backlog
entries, even from a full history. -/
theorem claim_C8_catchup_at_most_ten (s : WSState) (w : Conn)
    (cid : Option String) (now : String) :
    ((connect s w cid now).2.all fun p => p.1 == w) = true ∧
    ∀ alerts : List Alert,
      Envelope.history alerts ∈ (connect s w cid now).2.map Prod.snd →
      alerts.length ≤ 10 ∧ alerts = lastN 10 s.alert_history := by
  constructor
  · by_cases hh : s.alert_history = [] <;> simp [connect, hh]
  · intro alerts hmem
    by_cases hh : s.alert_history = []
    · simp [connect, hh] at hmem
    · simp [connect, hh] at hmem
      exact ⟨hmem ▸ lastN_length_le 10 s.alert_history, hmem⟩

/-- Witness for C8: a fresh subscriber connecting while the history holds 50
entries receives exactly the last 10. -/
theorem claim_C8_witness :
    ((connect
        ⟨[], [],
          List.replicate 50
            { platform := "twitter", severity := "warning",
              message := AMessage.text "m", recommended_action := "a",
              status := "degraded", response_time := 800, error_rate := 5,
              rate_limit_used := 450, rate_limit_total := 1000,
              timestamp := 0 }⟩
        7 none "t").2.all fun p => p.1 == 7) = true ∧
    Envelope.history
        (lastN 10
          (List.replicate 50
            ({ platform := "twitter", severity := "warning",
               message := AMessage.text "m", recommended_action := "a",
               status := "degraded", response_time := 800, error_rate := 5,
               rate_limit_used := 450, rate_limit_total := 1000,
               timestamp := 0 } : Alert))) ∈
      (connect
        ⟨[], [],
          List.replicate 50
            { platform := "twitter", severity := "warning",
              message := AMessage.text "m", recommended_action := "a",
              status := "degraded", response_time := 800, error_rate := 5,
              rate_limit_used := 450, rate_limit_total := 1000,
              timestamp := 0 }⟩
        7 none "t").2.map Prod.snd ∧
    (lastN 10
        (List.replicate 50
          ({ platform := "twitter", severity := "warning",
             message := AMessage.text "m", recommended_action := "a",
             status := "degraded", response_time := 800, error_rate := 5,
             rate_limit_used := 450, rate_limit_total := 1000,
             timestamp := 0 } : Alert))).length ≤ 10 ∧
    lastN 10
        (List.replicate 50
          ({ platform := "twitter", severity := "warning",
             message := AMessage.text "m", recommended_action := "a",
             status := "degraded", response_time := 800, error_rate := 5,
             rate_limit_used := 450, rate_limit_total := 1000,
             timestamp := 0 } : Alert)) =
      lastN 10
        (List.replicate 50
          ({ platform := "twitter", severity := "warning",
             message := AMessage.text "m", recommended_action := "a",
             status := "degraded", response_time := 800, error_rate := 5,
             rate_limit_used := 450, rate_limit_total := 1000,
             timestamp := 0 } : Alert)) :=
  ⟨(claim_C8_catchup_at_most_ten
      ⟨[], [],
        List.replicate 50
          { platform := "twitter", severity := "warning",
            message := AMessage.text "m", recommended_action := "a",
            status := "degraded", response_time := 800, error_rate := 5,
            rate_limit_used := 450, rate_limit_total := 1000,
            timestamp := 0 }⟩
      7 none "t").1,
    by decide,
    ((claim_C8_catchup_at_most_ten
        ⟨[], [],
          List.replicate 50
            { platform := "twitter", severity := "warning",
              message := AMessage.text "m", recommended_action := "a",
              status := "degraded", response_time := 800, error_rate := 5,
              rate_limit_used := 450, rate_limit_total := 1000,
              timestamp := 0 }⟩
        7 none "t").2 _ (by decide)).1,
    ((claim_C8_catchup_at_most_ten
        ⟨[], [],
          List.replicate 50
            { platform := "twitter", severity := "warning",
              message := AMessage.text "m", recommended_action := "a",
              status := "degraded", response_time := 800, error_rate := 5,
              rate_limit_used := 450, rate_limit_total := 1000,
              timestamp := 0 }⟩
        7 none "t").2 _ (by decide)).2⟩

/-!
## Invariant lemmas for the connection manager
-/

theorem dictSet_keys {α β : Type} [DecidableEq α] (d : List (α × β)) (k : α)
    (v : β) :
    (dictSet d k v).map Prod.fst =
      if k ∈ d.map Prod.fst then d.map Prod.fst
      else d.map Prod.fst ++ [k] := by
  induction d with
  | nil => simp [dictSet]
  | cons p rest ih =>
    by_cases hk : p.1 = k
    · simp [dictSet, hk]
    · by_cases hm : k ∈ rest.map Prod.fst <;>
        simp [dictSet, hk, ih, hm, Ne.symm hk]

theorem dictPop_keys {α β : Type} [DecidableEq α] (d : List (α × β)) (k : α) :
    (dictPop d k).map Prod.fst = (d.map Prod.fst).erase k := by
  induction d with
  | nil => rfl
  | cons p rest ih =>
    by_cases hk : p.1 = k <;> simp [dictPop, hk, ih, List.erase_cons]

theorem bump_meta_keys (d : List (Conn × Meta)) (c : Conn) :
    (bump_meta d c).map Prod.fst = d.map Prod.fst := by
  unfold bump_meta
  rw [List.map_map]
  apply List.map_congr_left
  intro p _
  by_cases hp : p.1 = c <;> simp [hp]

theorem broadcastLoop_meta_keys (fails : Conn → Bool) (conns : List Conn) :
    ∀ meta : List (Conn × Meta),
      (broadcastLoop fails conns meta).1.map Prod.fst = meta.map Prod.fst := by
  induction conns with
  | nil => intro m; rfl
  | cons c rest ih =>
    intro m
    by_cases hc : fails c = true <;>
      simp [broadcastLoop, hc, ih, bump_meta_keys]

theorem disconnect_inv {s : WSState} (h : ManagerInv s) (w : Conn) :
    ManagerInv (disconnect s w) := by
  by_cases hw : w ∈ s.active_connections
  · obtain ⟨h1, h2, h3⟩ := h
    refine ⟨?_, ?_, ?_⟩
    · simp only [disconnect, if_pos hw]
      exact h1.erase w
    · simp only [disconnect, if_pos hw, dictPop_keys]
      exact h2.erase w
    · intro c
      simp only [disconnect, if_pos hw, dictPop_keys]
      rw [List.Nodup.mem_erase_iff h1, List.Nodup.mem_erase_iff h2]
      exact and_congr_right fun _ => h3 c
  · simpa only [disconnect, if_neg hw] using h

theorem foldl_disconnect_inv (L : List Conn) :
    ∀ {s : WSState}, ManagerInv s → ManagerInv (L.foldl disconnect s) := by
  induction L with
  | nil => intro s h; exact h
  | cons c rest ih =>
    intro s h
    exact ih (disconnect_inv h c)

theorem connect_fst (s : WSState) (w : Conn) (cid : Option String)
    (now : String) :
    (connect s w cid now).1 =
      { s with
          active_connections := s.active_connections ++ [w]
          connection_metadata := dictSet s.connection_metadata w
            ⟨orFallback cid
              ("client_" ++ toString (s.active_connections ++ [w]).length),
              now, 0⟩ } := by
  by_cases hh : s.alert_history = [] <;> simp [connect, hh]

theorem connect_inv {s : WSState} (h : ManagerInv s) (w : Conn)
    (cid : Option String) (now : String) (hw : w ∉ s.active_connections) :
    ManagerInv (connect s w cid now).1 := by
  obtain ⟨h1, h2, h3⟩ := h
  have hwk : w ∉ s.connection_metadata.map Prod.fst :=
    fun hm => hw ((h3 w).mpr hm)
  rw [connect_fst]
  refine ⟨?_, ?_, ?_⟩
  · simp only [List.nodup_append, List.nodup_cons, List.not_mem_nil,
      not_false_eq_true, List.nodup_nil, and_true, true_and]
    exact ⟨h1, fun a ha hmem => by
      simp only [List.mem_singleton] at hmem
      exact hw (hmem ▸ ha)⟩
  · rw [dictSet_keys, if_neg hwk]
    simp only [List.nodup_append, List.nodup_cons, List.not_mem_nil,
      not_false_eq_true, List.nodup_nil, and_true, true_and]
    exact ⟨h2, fun a ha hmem => by
      simp only [List.mem_singleton] at hmem
      exact hwk (hmem ▸ ha)⟩
  · intro c
    rw [dictSet_keys, if_neg hwk]
    simp only [List.mem_append, List.mem_singleton]
    exact or_congr_left (h3 c)

theorem broadcast_inv {s : WSState} (h : ManagerInv s) (fails : Conn → Bool)
    (msg : Envelope) : ManagerInv (broadcast fails msg s).1 := by
  by_cases hempty : s.active_connections = []
  · simpa only [broadcast, if_pos hempty] using h
  · simp only [broadcast, if_neg hempty]
    apply foldl_disconnect_inv
    obtain ⟨h1, h2, h3⟩ := h
    refine ⟨h1, ?_, ?_⟩
    · rw [broadcastLoop_meta_keys]
      exact h2
    · intro c
      rw [broadcastLoop_meta_keys]
      exact h3 c

/-- Claim C9: a websocket is active exactly when it has a metadata entry;
`connect` (with a fresh connection), `disconnect` and the post-broadcast
cleanup each preserve this well-formedness, and under it `get_stats` reports
exactly one client record per active connection. -/
theorem claim_C9_metadata_in_sync (s : WSState) (w c : Conn)
    (cid : Option String) (now : String) (fails : Conn → Bool)
    (msg : Envelope) (hinv : ManagerInv s)
    (hw : w ∉ s.active_connections) :
    ManagerInv (connect s w cid now).1 ∧
    ManagerInv (disconnect s c) ∧
    ManagerInv (broadcast fails msg s).1 ∧
    (get_stats s).clients.length = (get_stats s).active_connections := by
  refine ⟨connect_inv hinv w cid now hw, disconnect_inv hinv c,
    broadcast_inv hinv fails msg, ?_⟩
  obtain ⟨h1, h2, h3⟩ := hinv
  have hperm : List.Perm s.active_connections
      (s.connection_metadata.map Prod.fst) :=
    (List.perm_ext_iff_of_nodup h1 h2).mpr h3
  have hlen : s.active_connections.length =
      s.connection_metadata.length := by
    rw [hperm.length_eq, List.length_map]
  simp only [get_stats, List.length_map]
  exact hlen.symm

/-- Witness for C9 at a concrete one-subscriber state with a fresh
connection, a disconnect target, and a failing-subscriber oracle. -/
theorem claim_C9_witness :
    (ManagerInv ⟨[5], [(5, ⟨"client_1", "t", 0⟩)], []⟩ ∧
      (7 : Conn) ∉ ([5] : List Conn)) ∧
    (ManagerInv (connect ⟨[5], [(5, ⟨"client_1", "t", 0⟩)], []⟩ 7 none "u").1 ∧
      ManagerInv (disconnect ⟨[5], [(5, ⟨"client_1", "t", 0⟩)], []⟩ 5) ∧
      ManagerInv (broadcast (fun _ => true) Envelope.ping
        ⟨[5], [(5, ⟨"client_1", "t", 0⟩)], []⟩).1 ∧
      (get_stats ⟨[5], [(5, ⟨"client_1", "t", 0⟩)], []⟩).clients.length =
        (get_stats ⟨[5], [(5, ⟨"client_1", "t", 0⟩)], []⟩).active_connections) :=
  ⟨⟨⟨by decide, by decide, fun c => by simp⟩, by decide⟩,
    claim_C9_metadata_in_sync ⟨[5], [(5, ⟨"client_1", "t", 0⟩)], []⟩ 7 5 none
      "u" (fun _ => true) Envelope.ping
      ⟨by decide, by decide, fun c => by simp⟩ (by decide)⟩

/-- Claim C10: when no client id is supplied, `connect` assigns
`client_N` with `N` the active-connection count after appending the new
connection — not a monotone counter — so after connect A, connect B,
disconnect A, connect C, the subscribers B and C are simultaneously active
and both hold the auto-assigned id `client_2`. -/
theorem claim_C10_duplicate_client_ids :
    (∀ (s : WSState) (w : Conn) (now : String),
      (dictGet (connect s w none now).1.connection_metadata w).map
          Meta.client_id =
        some ("client_" ++ toString (s.active_connections.length + 1))) ∧
    ((dictGet (connect (disconnect
          ((connect ((connect (⟨[], [], []⟩ : WSState) 1 none "t1").1)
            2 none "t2").1) 1) 3 none "t3").1.connection_metadata 2).map
        Meta.client_id = some "client_2" ∧
      (dictGet (connect (disconnect
          ((connect ((connect (⟨[], [], []⟩ : WSState) 1 none "t1").1)
            2 none "t2").1) 1) 3 none "t3").1.connection_metadata 3).map
        Meta.client_id = some "client_2" ∧
      (2 : Conn) ∈ (connect (disconnect
          ((connect ((connect (⟨[], [], []⟩ : WSState) 1 none "t1").1)
            2 none "t2").1) 1) 3 none "t3").1.active_connections ∧
      (3 : Conn) ∈ (connect (disconnect
          ((connect ((connect (⟨[], [], []⟩ : WSState) 1 none "t1").1)
            2 none "t2").1) 1) 3 none "t3").1.active_connections) := by
  constructor
  · intro s w now
    rw [connect_fst, dictGet_dictSet_self]
    simp [orFallback]
  · refine ⟨by decide, by decide, by decide, by decide⟩

end PostProber
